import Mathlib

/-!
Verification development for the python-lightify gateway client
(src/lightify/__init__.py).  The Python source is shallowly embedded:
bytes are lists of naturals below 256, the struct module is modelled by
a small codec over format strings, and the stateful session object is
modelled by explicit state passing.  Fallible Python operations
(struct.error, socket failures) are modelled with Option / Except.
-/

namespace Lightify

/-! ## Model of the Python struct module

Only the behaviour exercised by the source is modelled: the standard
size formats B, H, I, Q, s, x with optional repeat counts and an
explicit byte-order prefix.  A format string whose parse fails (for
example a trailing repeat count with no format character, as in the
source string "<Q16") makes pack/unpack fail, exactly as struct.error
does in Python.
-/

inductive Endian where
  | little
  | big
deriving DecidableEq

/-- One field of a parsed struct format: an unsigned integer of the
given byte size, a byte string of the given length, or pad bytes. -/
inductive Spec where
  | int (size : Nat)
  | str (len : Nat)
  | pad (len : Nat)
deriving DecidableEq

/-- One value passed to pack or produced by unpack. -/
inductive SVal where
  | num (n : Nat)
  | bytes (bs : List Nat)
deriving DecidableEq

/-- The specs produced by one format character with an optional repeat
count (a count before s is a byte length, before x a pad length, and
before an integer character a repetition). -/
def specsOf (c : Nat) (count : Option Nat) : Option (List Spec) :=
  let rep := fun sz => match count with
    | none => some [Spec.int sz]
    | some k => some (List.replicate k (Spec.int sz))
  if c = 66 then rep 1          -- B
  else if c = 72 then rep 2     -- H
  else if c = 73 then rep 4     -- I
  else if c = 81 then rep 8     -- Q
  else if c = 115 then some [Spec.str (count.getD 1)]   -- s
  else if c = 120 then some [Spec.pad (count.getD 1)]   -- x
  else none

/-- Parse the field characters of a struct format (byte-order prefix
already consumed).  A repeat count left pending at the end of the
string is an error: Python struct raises
struct.error: repeat count given without format specifier. -/
def parseFields : List Char → Option Nat → Option (List Spec)
  | [], none => some []
  | [], some _ => none
  | c :: rest, cnt =>
    let v := c.toNat
    if 48 ≤ v ∧ v ≤ 57 then
      parseFields rest (some ((cnt.getD 0) * 10 + (v - 48)))
    else
      match specsOf v cnt with
      | none => none
      | some s =>
        match parseFields rest none with
        | none => none
        | some r => some (s ++ r)

/-- Parse a full struct format string.  Every format string in the
source starts with an explicit byte order character, so native mode is
not modelled and a missing prefix is rejected. -/
def parseFormat (fmt : List Char) : Option (Endian × List Spec) :=
  match fmt with
  | c :: rest =>
    if c.toNat = 60 then (parseFields rest none).map (fun s => (Endian.little, s))        -- <
    else if c.toNat = 62 then (parseFields rest none).map (fun s => (Endian.big, s))     -- >
    else none
  | [] => none

def specSize : Spec → Nat
  | Spec.int n => n
  | Spec.str n => n
  | Spec.pad n => n

def calcsize (specs : List Spec) : Nat :=
  (specs.map specSize).sum

/-- Little-endian byte decoding. -/
def leNat : List Nat → Nat
  | [] => 0
  | b :: r => b + 256 * leNat r

/-- Little-endian byte encoding of a value into a fixed width. -/
def leBytes : Nat → Nat → List Nat
  | 0, _ => []
  | n + 1, v => v % 256 :: leBytes n (v / 256)

def decodeInt (e : Endian) (bs : List Nat) : Nat :=
  match e with
  | Endian.little => leNat bs
  | Endian.big => leNat bs.reverse

def encodeInt (e : Endian) (n v : Nat) : List Nat :=
  match e with
  | Endian.little => leBytes n v
  | Endian.big => (leBytes n v).reverse

def unpackGo (e : Endian) : List Spec → List Nat → List SVal
  | [], _ => []
  | Spec.int n :: r, d => SVal.num (decodeInt e (d.take n)) :: unpackGo e r (d.drop n)
  | Spec.str n :: r, d => SVal.bytes (d.take n) :: unpackGo e r (d.drop n)
  | Spec.pad n :: r, d => unpackGo e r (d.drop n)

/-- struct.unpack: requires the data length to equal calcsize exactly,
otherwise struct.error (modelled by none). -/
def unpack (fmt : List Char) (data : List Nat) : Option (List SVal) :=
  match parseFormat fmt with
  | none => none
  | some (e, specs) =>
    if data.length = calcsize specs then some (unpackGo e specs data) else none

def packGo (e : Endian) : List Spec → List SVal → Option (List Nat)
  | [], [] => some []
  | Spec.pad n :: r, vs =>
    (packGo e r vs).map (fun rest => List.replicate n 0 ++ rest)
  | Spec.int n :: r, SVal.num v :: vs =>
    if v < 256 ^ n then (packGo e r vs).map (fun rest => encodeInt e n v ++ rest)
    else none
  | Spec.str n :: r, SVal.bytes b :: vs =>
    (packGo e r vs).map (fun rest => (b.take n ++ List.replicate (n - b.length) 0) ++ rest)
  | _, _ => none

/-- struct.pack: fails (struct.error) on a bad format string, a value
out of range for its field, or an argument count mismatch. -/
def pack (fmt : List Char) (vals : List SVal) : Option (List Nat) :=
  match parseFormat fmt with
  | none => none
  | some (e, specs) => packGo e specs vals

/-! Format strings appearing in the source, as character lists. -/

def fmtB : List Char := [Char.ofNat 60, Char.ofNat 66]                       -- "<B"
def fmtH : List Char := [Char.ofNat 60, Char.ofNat 72]                       -- "<H"
def fmtQ : List Char := [Char.ofNat 60, Char.ofNat 81]                       -- "<Q"
def fmtHH : List Char := [Char.ofNat 60, Char.ofNat 72, Char.ofNat 72]       -- "<HH"
def fmtBH : List Char := [Char.ofNat 60, Char.ofNat 66, Char.ofNat 72]       -- "<BH"
def fmtBBBB : List Char :=
  [Char.ofNat 60, Char.ofNat 66, Char.ofNat 66, Char.ofNat 66, Char.ofNat 66] -- "<BBBB"
def fmtBBBBH : List Char :=
  [Char.ofNat 60, Char.ofNat 66, Char.ofNat 66, Char.ofNat 66, Char.ofNat 66,
   Char.ofNat 72]                                                            -- "<BBBBH"
def fmtH6B : List Char :=
  [Char.ofNat 60, Char.ofNat 72, Char.ofNat 54, Char.ofNat 66]               -- "<H6B"
def fmt8B : List Char :=
  [Char.ofNat 60, Char.ofNat 56, Char.ofNat 66]                              -- "<8B"
def fmtBigI : List Char := [Char.ofNat 62, Char.ofNat 73]                    -- ">I"
def fmtQ16 : List Char :=
  [Char.ofNat 60, Char.ofNat 81, Char.ofNat 49, Char.ofNat 54]               -- "<Q16"
def fmtH16s : List Char :=
  [Char.ofNat 60, Char.ofNat 72, Char.ofNat 49, Char.ofNat 54, Char.ofNat 115] -- "<H16s"
def fmtH16sB : List Char :=
  [Char.ofNat 60, Char.ofNat 72, Char.ofNat 49, Char.ofNat 54, Char.ofNat 115,
   Char.ofNat 66]                                                            -- "<H16sB"

/-- Python slice data[i:j] for 0 ≤ i ≤ j (truncating, never failing). -/
def pySub (l : List Nat) (i j : Nat) : List Nat :=
  (l.drop i).take (j - i)

/-! ## Command codes (source lines 34-41) -/

def COMMAND_ALL_LIGHT_STATUS : Nat := 0x13
def COMMAND_GROUP_LIST : Nat := 0x1e
def COMMAND_GROUP_INFO : Nat := 0x26
def COMMAND_LUMINANCE : Nat := 0x31
def COMMAND_ONOFF : Nat := 0x32
def COMMAND_TEMP : Nat := 0x33
def COMMAND_COLOUR : Nat := 0x36
def COMMAND_LIGHT_STATUS : Nat := 0x68

/-! ## Frame building (source lines 246-356)

The session sequence counter (self.__seq, a Python unbounded int,
initialised to 1) is passed explicitly.  Each builder returns the
frame bytes as an Option (none models a struct.error raised while
packing) together with the sequence counter after the call.  A
struct.pack of an argument happens before next_seq is evaluated, so a
payload or target packing failure leaves the counter untouched, while
the header pack inside build_basic_command runs after next_seq and so
a header packing failure still advances the counter.
-/

/-- self.__seq = self.__seq + 1; return self.__seq (lines 246-248).
First component is the returned value, second the new counter. -/
def next_seq (s : Nat) : Nat × Nat := (s + 1, s + 1)

/-- Lines 278-304: length = 14 + len(data), header packed with "<H6B"
as (length, flag, command, 0, 0, 0x7, next_seq()), then target and
payload appended. -/
def build_basic_command (flag command : Nat) (group_or_light data : List Nat)
    (st : Nat) : Option (List Nat) × Nat :=
  let length := 14 + data.length
  let p := next_seq st
  ((pack fmtH6B [SVal.num length, SVal.num flag, SVal.num command,
      SVal.num 0, SVal.num 0, SVal.num 7, SVal.num p.1]).map
      (fun hdr => hdr ++ group_or_light ++ data),
   p.2)

/-- Lines 250-276: global command, length = 6 + len(data), flag 0x02,
no target selector. -/
def build_global_command (command : Nat) (data : List Nat) (st : Nat) :
    Option (List Nat) × Nat :=
  let length := 6 + data.length
  let p := next_seq st
  ((pack fmtH6B [SVal.num length, SVal.num 0x02, SVal.num command,
      SVal.num 0, SVal.num 0, SVal.num 7, SVal.num p.1]).map
      (fun hdr => hdr ++ data),
   p.2)

/-- Lines 306-313: group-targeted command; the target selector is
struct.pack("<8B", group.idx(), 0, 0, 0, 0, 0, 0, 0), evaluated before
build_basic_command is entered. -/
def build_command (command idx : Nat) (data : List Nat) (st : Nat) :
    Option (List Nat) × Nat :=
  match pack fmt8B [SVal.num idx, SVal.num 0, SVal.num 0, SVal.num 0,
      SVal.num 0, SVal.num 0, SVal.num 0, SVal.num 0] with
  | none => (none, st)
  | some target => build_basic_command 0x02 command target data st

/-- Lines 315-323: light-targeted command; the target selector is
struct.pack("<Q", light.addr()). -/
def build_light_command (command addr : Nat) (data : List Nat) (st : Nat) :
    Option (List Nat) × Nat :=
  match pack fmtQ [SVal.num addr] with
  | none => (none, st)
  | some target => build_basic_command 0x00 command target data st

/-- Lines 325-326 dispatched through Light.build_command (line 180):
item.build_command(COMMAND_ONOFF, struct.pack("<B", on)) for a Light.
The payload pack is evaluated first. -/
def build_onoff_light (addr «on» st : Nat) : Option (List Nat) × Nat :=
  match pack fmtB [SVal.num «on»] with
  | none => (none, st)
  | some data => build_light_command COMMAND_ONOFF addr data st

/-- Lines 325-326 dispatched through Group.build_command (line 212). -/
def build_onoff_group (idx «on» st : Nat) : Option (List Nat) × Nat :=
  match pack fmtB [SVal.num «on»] with
  | none => (none, st)
  | some data => build_command COMMAND_ONOFF idx data st

/-- Lines 346-350: build_all_light_status(flag). -/
def build_all_light_status (flag st : Nat) : Option (List Nat) × Nat :=
  match pack fmtB [SVal.num flag] with
  | none => (none, st)
  | some data => build_global_command COMMAND_ALL_LIGHT_STATUS data st

/-- Lines 355-356: build_group_list (empty payload). -/
def build_group_list (st : Nat) : Option (List Nat) × Nat :=
  build_global_command COMMAND_GROUP_LIST [] st

/-- Lines 343-344: build_group_info (empty payload, group targeted). -/
def build_group_info (idx st : Nat) : Option (List Nat) × Nat :=
  build_command COMMAND_GROUP_INFO idx [] st

/-! ## Receiving (source lines 414-439)

The socket is modelled by the list of byte chunks that successive
sock.recv calls return.  The first chunk is what sock.recv(2) yields;
the remaining chunks feed the while loop.  An exhausted chunk list
stands for a closed socket, on which the Python loop would spin
forever receiving empty chunks; that divergence is modelled as none.
-/

/-- The while loop of recv (lines 425-437): accumulates every chunk
into string, remembers the last chunk in data, and stops once the
expected count is satisfied.  Returns (string, data). -/
def recvLoop : Int → List Nat → List Nat → List (List Nat) →
    Option (List Nat × List Nat)
  | expected, string, data, [] =>
    if expected ≤ 0 then some (string, data) else none
  | expected, string, data, c :: rest =>
    if expected ≤ 0 then some (string, data)
    else recvLoop (expected - c.length) (string ++ c) c rest

/-- recv (lines 414-439): reads 2 bytes, unpacks the little-endian
length, then loops until length bytes beyond the prefix have arrived.
Line 439 returns data — the last chunk received — not the accumulated
string. -/
def recv (chunks : List (List Nat)) : Option (List Nat) :=
  match chunks with
  | [] => none
  | c0 :: rest =>
    match unpack fmtH (c0.take 2) with
    | some [SVal.num length] =>
      (recvLoop ((length : Int) + 2 - c0.length) [] c0 rest).map
        (fun r => r.2)
    | _ => none

/-! ## Light device model (source lines 84-181)

A Light is a mutable Python object; its fields are modelled as a
record.  The name is kept as the raw byte list (Python 2 str).  The
on/off flag and all other attributes are Python ints, modelled as Nat
(the source only ever stores non-negative values in them).
-/

structure LightState where
  id : Nat := 0
  addr : Nat := 0
  type : Nat := 0
  fwVersion : Nat := 0
  online : Nat := 0
  groupId : Nat := 0
  «on» : Nat := 0
  lum : Nat := 0
  temp : Nat := 0
  r : Nat := 0
  g : Nat := 0
  b : Nat := 0
  alpha : Nat := 0
  name : List Nat := []
deriving DecidableEq

/-- Light.update_status (lines 109-120): overwrites every status
field, keeping id, addr and type. -/
def update_status (l : LightState) (fwVersion online groupId status
    luminance temp red green blue alpha : Nat) (name : List Nat) : LightState :=
  { l with
      fwVersion := fwVersion
      online := online
      groupId := groupId
      «on» := status
      lum := luminance
      temp := temp
      r := red
      g := green
      b := blue
      alpha := alpha
      name := name }

/-- First half of Light.set_onoff (line 135): self.__on = on, executed
before the wire round trip. -/
def set_onoff_pre (l : LightState) («on» : Nat) : LightState :=
  { l with «on» := «on» }

/-- Second half of Light.set_onoff (lines 137-138): after the wire
round trip, if self.lum() == 0 and on != 0 then self.__lum = 1. -/
def set_onoff_post (l : LightState) («on» : Nat) : LightState :=
  if l.lum = 0 ∧ «on» ≠ 0 then { l with lum := 1 } else l

/-- First half of Light.set_luminance (line 144): self.__lum = lum. -/
def set_luminance_pre (l : LightState) (lum : Nat) : LightState :=
  { l with lum := lum }

/-- Second half of Light.set_luminance (lines 146-149): if lum > 0 and
self.__on == 0 then self.__on = 1, elif lum == 0 and self.__on != 0
then self.__on = 0. -/
def set_luminance_post (l : LightState) (lum : Nat) : LightState :=
  if 0 < lum ∧ l.«on» = 0 then { l with «on» := 1 }
  else if lum = 0 ∧ l.«on» ≠ 0 then { l with «on» := 0 }
  else l

/-- First half of Light.set_temperature (line 155): self.__temp = temp. -/
def set_temperature_pre (l : LightState) (temp : Nat) : LightState :=
  { l with temp := temp }

/-- First half of Light.set_rgb (lines 162-164): sets r, g, b. -/
def set_rgb_pre (l : LightState) (r g b : Nat) : LightState :=
  { l with r := r, g := g, b := b }

/-- Light.set_onoff (lines 134-138) with the wire round trip
abstracted by a success flag.  On wire failure the exception escapes
between the two halves, so the error carries the pre state. -/
def light_set_onoff (l : LightState) («on» : Nat) (wireOk : Bool) :
    Except LightState LightState :=
  let l1 := set_onoff_pre l «on»
  if wireOk then Except.ok (set_onoff_post l1 «on») else Except.error l1

/-- Light.set_luminance (lines 143-149), wire abstracted as above.
The time argument only affects the wire payload. -/
def light_set_luminance (l : LightState) (lum time : Nat) (wireOk : Bool) :
    Except LightState LightState :=
  let l1 := set_luminance_pre l lum
  if wireOk then Except.ok (set_luminance_post l1 lum) else Except.error l1

/-- Light.set_temperature (lines 154-156), wire abstracted. -/
def light_set_temperature (l : LightState) (temp time : Nat) (wireOk : Bool) :
    Except LightState LightState :=
  let l1 := set_temperature_pre l temp
  if wireOk then Except.ok l1 else Except.error l1

/-- Light.set_rgb (lines 161-166), wire abstracted. -/
def light_set_rgb (l : LightState) (r g b time : Nat) (wireOk : Bool) :
    Except LightState LightState :=
  let l1 := set_rgb_pre l r g b
  if wireOk then Except.ok l1 else Except.error l1

/-- The local mutators quantified over by the luminance/on-off
invariant claims. -/
inductive Mutator where
  | setOnoff («on» : Nat)
  | setLuminance (lum time : Nat)
deriving DecidableEq

/-- Effect of one mutator call on the local state when the wire round
trip succeeds (the success path of light_set_onoff and
light_set_luminance). -/
def applyMutator (l : LightState) : Mutator → LightState
  | Mutator.setOnoff «on» => set_onoff_post (set_onoff_pre l «on») «on»
  | Mutator.setLuminance lum _ => set_luminance_post (set_luminance_pre l lum) lum

/-- Running a list of mutator calls in order. -/
def runMutators (l : LightState) (ms : List Mutator) : LightState :=
  ms.foldl applyMutator l

/-! ## Light.mac (source lines 99-101)

format(addr, 'x') renders a Python int as minimal-length lowercase
hex with no zero padding; the source then dash-joins the slices
[0:2], [2:4], ..., [14:16] of that string.
-/

/-- Lowercase hex digit character for a value below 16. -/
def hexChar (n : Nat) : Char :=
  if n < 10 then Char.ofNat (48 + n) else Char.ofNat (87 + n)

/-- format(n, 'x'): minimal-length lowercase hex, most significant
digit first, with a single zero digit for n = 0. -/
def hexRep (n : Nat) : List Char :=
  if h : n < 16 then [hexChar n]
  else hexRep (n / 16) ++ [hexChar (n % 16)]
decreasing_by
  exact Nat.div_lt_self (by omega) (by omega)

def dashChar : Char := Char.ofNat 45

/-- Python sep.join(parts). -/
def pyJoin (sep : Char) : List (List Char) → List Char
  | [] => []
  | [p] => p
  | p :: q :: rest => p ++ sep :: pyJoin sep (q :: rest)

/-- Light.mac (lines 99-101): dash-join of the two-character slices of
the unpadded hex representation of the address; the slice starts are
range(0, 16, 2). -/
def mac (addr : Nat) : List Char :=
  pyJoin dashChar ((List.range 8).map (fun k => ((hexRep addr).drop (2 * k)).take 2))

/-- Test used to state the mac claims: the character is a lowercase
hex digit. -/
def isHexDigitChar (c : Char) : Bool :=
  (48 ≤ c.toNat && c.toNat ≤ 57) || (97 ≤ c.toNat && c.toNat ≤ 102)

/-! ## Session state and registries (source lines 216-235)

Python dicts are modelled as association lists with insert-or-replace
update, which preserves both key lookup and insertion behaviour of the
dict operations the source uses.
-/

/-- d[k] lookup. -/
def alGet? {α β : Type} [DecidableEq α] : List (α × β) → α → Option β
  | [], _ => none
  | (k, v) :: rest, key => if k = key then some v else alGet? rest key

/-- d[k] = v update. -/
def alSet {α β : Type} [DecidableEq α] : List (α × β) → α → β → List (α × β)
  | [], key, v => [(key, v)]
  | (k, w) :: rest, key, v =>
    if k = key then (key, v) :: rest else (k, w) :: alSet rest key v

/-- Group data (source lines 184-213): index, name, member light
addresses. -/
structure GroupState where
  idx : Nat := 0
  name : List Nat := []
  lights : List Nat := []
deriving DecidableEq

/-- The session fields the claims concern: the sequence counter
(initialised to 1), the light registry keyed by address, the group
registry keyed by name (lines 222-224). -/
structure SessionState where
  seq : Nat := 1
  lights : List (Nat × LightState) := []
  groups : List (List Nat × GroupState) := []
deriving DecidableEq

/-- Failures the embedded operations can surface: struct.error from
pack/unpack, and socket-level failure on send/recv. -/
inductive PyError where
  | structError
  | transport
deriving DecidableEq

/-! ## Group list / group info parsing (source lines 358-408) -/

/-- The entry loop of group_list (lines 366-374): for each of num
entries, unpack "<H16s" from data[9+i*18 : 9+i*18+18], strip NUL bytes
from the name, and store under the index. -/
def group_list_entries (data : List Nat) :
    Nat → Nat → List (Nat × List Nat) → Except PyError (List (Nat × List Nat))
  | 0, _, acc => Except.ok acc
  | n + 1, i, acc =>
    let pos := 9 + i * 18
    match unpack fmtH16s (pySub data pos (pos + 18)) with
    | some [SVal.num idx, SVal.bytes nm] =>
      group_list_entries data n (i + 1) (alSet acc idx (nm.filter (fun b => b ≠ 0)))
    | _ => Except.error PyError.structError

/-- group_list response parsing (lines 358-376): the count is
unpack("<H", data[7:9]). -/
def group_list_parse (data : List Nat) : Except PyError (List (Nat × List Nat)) :=
  match unpack fmtH (pySub data 7 9) with
  | some [SVal.num num] => group_list_entries data num 0 []
  | _ => Except.error PyError.structError

/-- The address loop of group_info (lines 399-405): each address is
unpack("<Q", data[7+19+i*8 : 7+19+i*8+8]). -/
def group_info_addrs (data : List Nat) : Nat → Nat → Except PyError (List Nat)
  | 0, _ => Except.ok []
  | n + 1, i =>
    let pos := 7 + 19 + i * 8
    match unpack fmtQ (pySub data pos (pos + 8)) with
    | some [SVal.num addr] =>
      match group_info_addrs data n (i + 1) with
      | Except.error e => Except.error e
      | Except.ok rest => Except.ok (addr :: rest)
    | _ => Except.error PyError.structError

/-- group_info response parsing (lines 390-408): header is
unpack("<H16sB", data[7:][:19]), then the address list. -/
def group_info_parse (data : List Nat) :
    Except PyError (Nat × List Nat × List Nat) :=
  let payload := data.drop 7
  match unpack fmtH16sB (payload.take 19) with
  | some [SVal.num idx, SVal.bytes nm, SVal.num num] =>
    match group_info_addrs data num 0 with
    | Except.error e => Except.error e
    | Except.ok lights => Except.ok (idx, nm.filter (fun b => b ≠ 0), lights)
  | _ => Except.error PyError.structError

/-! ## update_group_list (source lines 378-388)

The gateway responses are modelled as the list of recv results the
session would observe, in order: first the group-list response, then
one response per group-info sub-request.  none models a socket
failure during that round trip.  Errors carry the sequence counter at
the moment the exception escapes; the registries are only assigned on
the success path, as in the source.
-/

/-- The per-group loop of update_group_list (lines 382-386): builds
and sends group_info for each (idx, name), parses the reply, and
stores the Group under its name. -/
def ugl_loop : List (Nat × List Nat) → Nat → List (Option (List Nat)) →
    List (List Nat × GroupState) →
    Except (PyError × Nat) (Nat × List (List Nat × GroupState))
  | [], seq, _, acc => Except.ok (seq, acc)
  | (idx, nm) :: rest, seq, stream, acc =>
    match build_group_info idx seq with
    | (none, seq1) => Except.error (PyError.structError, seq1)
    | (some _, seq1) =>
      match stream with
      | [] => Except.error (PyError.transport, seq1)
      | none :: _ => Except.error (PyError.transport, seq1)
      | some data :: stRest =>
        match group_info_parse data with
        | Except.error e => Except.error (e, seq1)
        | Except.ok (_, _, lights) =>
          ugl_loop rest seq1 stRest
            (alSet acc nm { idx := idx, name := nm, lights := lights })

/-- update_group_list (lines 378-388): fetches the group list, then
the membership of every group, and replaces self.__groups only at the
very end.  On any failure the error carries the session state at the
moment the exception propagates. -/
def update_group_list (s : SessionState) (stream : List (Option (List Nat))) :
    Except (PyError × SessionState) SessionState :=
  match build_group_list s.seq with
  | (none, seq1) => Except.error (PyError.structError, { s with seq := seq1 })
  | (some _, seq1) =>
    match stream with
    | [] => Except.error (PyError.transport, { s with seq := seq1 })
    | none :: _ => Except.error (PyError.transport, { s with seq := seq1 })
    | some data :: rest =>
      match group_list_parse data with
      | Except.error e => Except.error (e, { s with seq := seq1 })
      | Except.ok lst =>
        match ugl_loop lst seq1 rest [] with
        | Except.error (e, seqf) => Except.error (e, { s with seq := seqf })
        | Except.ok (seqf, groups) =>
          Except.ok { s with seq := seqf, groups := groups }

/-! ## update_all_light_status (source lines 458-540) -/

/-- One 50-byte status record decoded field by field exactly as in
lines 474-513.  The MAC field is read with struct.unpack("<Q16", ...)
(line 479); that format string carries a trailing repeat count without
a format character, so struct raises struct.error on every record and
the fields after it are never reached. -/
structure StatusRecord where
  id : Nat
  mac : Nat
  type : Nat
  fwVersion : Nat
  online : Nat
  groupId : Nat
  status : Nat
  brightness : Nat
  temp : Nat
  red : Nat
  green : Nat
  blue : Nat
  alpha : Nat
  name : List Nat
  unknown : Nat
deriving DecidableEq

def decode_status_record (payload : List Nat) : Except PyError StatusRecord :=
  match unpack fmtH (pySub payload 0 2) with
  | some [SVal.num id] =>
    match unpack fmtQ16 (pySub payload 2 10) with
    | some [SVal.num mac] =>
      match unpack fmtB (pySub payload 10 11) with
      | some [SVal.num type] =>
        match unpack fmtBigI (pySub payload 11 15) with
        | some [SVal.num fwVersion] =>
          match unpack fmtB (pySub payload 15 16) with
          | some [SVal.num online] =>
            match unpack fmtH (pySub payload 16 18) with
            | some [SVal.num groupId] =>
              match unpack fmtB (pySub payload 18 19) with
              | some [SVal.num status] =>
                match unpack fmtBH (pySub payload 19 22) with
                | some [SVal.num brightness, SVal.num temp] =>
                  match unpack fmtBBBB (pySub payload 22 26) with
                  | some [SVal.num red, SVal.num green, SVal.num blue,
                      SVal.num alpha] =>
                    match unpack fmtQ (pySub payload 42 50) with
                    | some [SVal.num unknown] =>
                      Except.ok
                        { id := id, mac := mac, type := type
                          fwVersion := fwVersion, online := online
                          groupId := groupId, status := status
                          brightness := brightness, temp := temp
                          red := red, green := green, blue := blue
                          alpha := alpha
                          name := (pySub payload 26 42).filter (fun b => b ≠ 0)
                          unknown := unknown }
                    | _ => Except.error PyError.structError
                  | _ => Except.error PyError.structError
                | _ => Except.error PyError.structError
              | _ => Except.error PyError.structError
            | _ => Except.error PyError.structError
          | _ => Except.error PyError.structError
        | _ => Except.error PyError.structError
      | _ => Except.error PyError.structError
    | _ => Except.error PyError.structError
  | _ => Except.error PyError.structError

/-- The record loop of update_all_light_status (lines 471-537).  reg
is the view through old_lights = self.__lights: when a record matches
an existing Light the same object is updated in place, so the update
is visible through the old registry as well.  Errors carry the old
registry view at the moment of the failure. -/
def als_loop (data : List Nat) :
    Nat → Nat → List (Nat × LightState) → List (Nat × LightState) →
    Except (PyError × List (Nat × LightState)) (List (Nat × LightState))
  | 0, _, _, newL => Except.ok newL
  | n + 1, i, reg, newL =>
    let pos := 9 + i * 50
    let payload := pySub data pos (pos + 50)
    match decode_status_record payload with
    | Except.error e => Except.error (e, reg)
    | Except.ok rec =>
      let light :=
        match alGet? reg rec.mac with
        | some old =>
          update_status old rec.fwVersion rec.online rec.groupId rec.status
            rec.brightness rec.temp rec.red rec.green rec.blue rec.alpha rec.name
        | none =>
          update_status
            { id := rec.id, addr := rec.mac, type := rec.type, name := rec.name }
            rec.fwVersion rec.online rec.groupId rec.status
            rec.brightness rec.temp rec.red rec.green rec.blue rec.alpha rec.name
      let reg1 :=
        match alGet? reg rec.mac with
        | some _ => alSet reg rec.mac light
        | none => reg
      als_loop data n (i + 1) reg1 (alSet newL rec.mac light)

/-- update_all_light_status (lines 458-540): builds and sends the
all-light-status request, parses the count from data[7:9], folds the
record loop over self.__lights, and replaces self.__lights only at the
very end. -/
def update_all_light_status (s : SessionState) (resp : Option (List Nat)) :
    Except (PyError × SessionState) SessionState :=
  match build_all_light_status 1 s.seq with
  | (none, seq1) => Except.error (PyError.structError, { s with seq := seq1 })
  | (some _, seq1) =>
    match resp with
    | none => Except.error (PyError.transport, { s with seq := seq1 })
    | some data =>
      match unpack fmtH (pySub data 7 9) with
      | some [SVal.num num] =>
        match als_loop data num 0 s.lights [] with
        | Except.error (e, reg) =>
          Except.error (e, { s with seq := seq1, lights := reg })
        | Except.ok newL => Except.ok { s with seq := seq1, lights := newL }
      | _ => Except.error (PyError.structError, { s with seq := seq1 })

/-! ## Concrete inputs used by the claim theorems -/

/-- The light address 0x0123456789ABCDEF used by the literal frame
example of the spec. -/
def addrLit : Nat := 0x0123456789ABCDEF

/-- The synthetic 50-byte all-light-status record of the spec example:
id=1, an 8-byte address of 0xAA bytes, type=2, firmware 0x01020304
big-endian, online=1, group=3, status=1, brightness=128, temp=2700,
r/g/b/alpha = 255/200/150/255, name "Test" NUL-padded to 16 bytes,
8 reserved bytes. -/
def testRecord : List Nat :=
  [1, 0] ++ List.replicate 8 0xAA ++ [2] ++ [1, 2, 3, 4] ++ [1] ++ [3, 0] ++
  [1] ++ [128] ++ [0x8C, 0x0A] ++ [255, 200, 150, 255] ++
  ([84, 101, 115, 116] ++ List.replicate 12 0) ++ List.replicate 8 0

/-- A well-formed all-light-status response body holding one copy of
testRecord: 7 header bytes, the 2-byte count 1, then the record. -/
def testAllLightData : List Nat :=
  [59, 0, 3, 0x13, 0, 0, 7] ++ [1, 0] ++ testRecord

/-- A fresh session: seq = 1, empty registries (lines 222-224). -/
def testSession : SessionState := {}

/-- A light that is on with luminance 128. -/
def testLight : LightState :=
  { id := 1, addr := 0xAA, type := 2, «on» := 1, lum := 128 }

/-- A light that is off with a stale positive luminance. -/
def testLightOff : LightState :=
  { id := 1, addr := 0xAB, type := 2, «on» := 0, lum := 77 }

/-- Sequence counter after n commands issued since connect: starts at
1 (line 222) and each command runs next_seq exactly once.  The issued
command is the set-on-off of the literal example. -/
def seqCounterAfter : Nat → Nat
  | 0 => 1
  | n + 1 => (build_onoff_light addrLit 1 (seqCounterAfter n)).2

/-! ## Helper lemmas -/

/-- Every issued command advances the counter by exactly one: next_seq
runs before the header pack, so even a failing header pack has already
incremented the counter. -/
theorem build_onoff_light_snd (st : Nat) :
    (build_onoff_light addrLit 1 st).2 = st + 1 := rfl

theorem seqCounterAfter_eq (n : Nat) : seqCounterAfter n = 1 + n := by
  induction n with
  | zero => rfl
  | succ m ih =>
    show (build_onoff_light addrLit 1 (seqCounterAfter m)).2 = 1 + (m + 1)
    rw [build_onoff_light_snd, ih]
    omega

/-- The format string "<Q16" of source line 479 does not parse (its
repeat count has no format character), so this unpack fails on every
input, as struct.error does in Python. -/
theorem unpack_fmtQ16 (data : List Nat) : unpack fmtQ16 data = none := rfl

/-- Decoding any 50-byte status record raises struct.error at the MAC
field. -/
theorem decode_status_record_error (payload : List Nat) :
    decode_status_record payload = Except.error PyError.structError := by
  unfold decode_status_record
  split <;> simp [unpack_fmtQ16]

/-! ## Claim theorems -/

/-- C1: the spec says a well-formed 50-byte all-light-status record
with the given field values decodes into a Light with exactly those
attributes.  The source cannot do this: line 479 unpacks the address
with struct.unpack("<Q16", ...), whose format string has a trailing
repeat count and therefore raises struct.error on every record, so
update_all_light_status fails before producing any Light.  The claim
matches the intent documented in the source comments (MAC - unsigned
long (8)); the format string is the slip. -/
theorem c1_all_light_status_decode_raises :
    parseFormat fmtQ16 = none ∧
    decode_status_record testRecord = Except.error PyError.structError ∧
    update_all_light_status testSession (some testAllLightData) =
      Except.error (PyError.structError,
        { seq := 2, lights := [], groups := [] }) :=
  ⟨rfl, decode_status_record_error testRecord, rfl⟩

/-- C2: recv accumulates the reassembled body in the local string but
line 439 returns data, the last chunk read.  With the 4-byte body
delivered in two reads the function returns only the final 2 bytes,
differing from the single-read delivery of the same body. -/
theorem c2_recv_returns_last_chunk :
    recv [[4, 0], [1, 2], [3, 4]] = some [3, 4] ∧
    recv [[4, 0], [1, 2, 3, 4]] = some [1, 2, 3, 4] ∧
    ([3, 4] : List Nat) ≠ [1, 2, 3, 4] :=
  ⟨rfl, rfl, by decide⟩

/-- C4: the literal frame example: set-on-off for the light at address
0x0123456789ABCDEF with on=1, carrying sequence number 5, is exactly
the 17 bytes demanded by the claim. -/
theorem c4_onoff_frame_bytes :
    build_onoff_light addrLit 1 4 =
      (some [15, 0, 0x00, 0x32, 0, 0, 0x07, 0x05,
        0xEF, 0xCD, 0xAB, 0x89, 0x67, 0x45, 0x23, 0x01, 0x01], 5) := rfl

/-- After any single mutator call, luminance 0 implies the on flag is
0: set_luminance maintains it by lines 146-149, and set_onoff can only
leave luminance 0 when the requested flag itself is 0. -/
theorem applyMutator_lum_zero_off (l : LightState) (m : Mutator) :
    (applyMutator l m).lum = 0 → (applyMutator l m).«on» = 0 := by
  cases m with
  | setOnoff v =>
    simp only [applyMutator, set_onoff_pre, set_onoff_post]
    split_ifs with h <;> simp_all
  | setLuminance v t =>
    simp only [applyMutator, set_luminance_pre, set_luminance_post]
    split_ifs with h1 h2 <;> simp_all <;> omega

theorem runMutators_lum_zero_off (ms : List Mutator) (l : LightState)
    (m : Mutator) :
    (runMutators l (m :: ms)).lum = 0 → (runMutators l (m :: ms)).«on» = 0 := by
  induction ms generalizing l m with
  | nil => exact applyMutator_lum_zero_off l m
  | cons m2 rest ih =>
    show (runMutators (applyMutator l m) (m2 :: rest)).lum = 0 → _
    exact ih (applyMutator l m) m2

/-- C6 counterexample: set_onoff(0) (lines 134-138) never touches the
luminance, so turning off a light whose luminance is 128 yields
on = 0 with luminance 128, and the claimed biconditional
(luminance = 0 iff off) is false for this mutator sequence. -/
theorem c6_counterexample :
    ¬(((runMutators testLight [Mutator.setOnoff 0]).lum = 0) ↔
      ((runMutators testLight [Mutator.setOnoff 0]).«on» = 0)) := by
  decide

/-- C6 amended: after any nonempty sequence of local mutator calls the
invariant holds in one direction only: luminance 0 forces the on flag
to 0 (equivalently, on implies positive luminance).  Setting a
positive luminance forces on, setting luminance 0 forces off, and
turning on with luminance 0 snaps the luminance to 1 — but turning
off leaves the luminance unchanged, so an off light with positive
luminance is reachable and the converse direction fails. -/
theorem c6_amended (l : LightState) (m : Mutator) (ms : List Mutator)
    (lum time : Nat) :
    ((runMutators l (m :: ms)).lum = 0 → (runMutators l (m :: ms)).«on» = 0) ∧
    (applyMutator l (Mutator.setLuminance (lum + 1) time)).«on» ≠ 0 ∧
    (applyMutator l (Mutator.setLuminance 0 time)).«on» = 0 ∧
    (l.lum = 0 → (applyMutator l (Mutator.setOnoff 1)).lum = 1) ∧
    (applyMutator l (Mutator.setOnoff 0)).lum = l.lum := by
  refine ⟨runMutators_lum_zero_off ms l m, ?_, ?_, ?_, ?_⟩
  · simp only [applyMutator, set_luminance_pre, set_luminance_post]
    split_ifs with h1 h2 <;> simp_all
  · simp only [applyMutator, set_luminance_pre, set_luminance_post]
    split_ifs with h1 h2 <;> simp_all
  · intro h
    simp only [applyMutator, set_onoff_pre, set_onoff_post]
    split_ifs with h1 <;> simp_all
  · simp only [applyMutator, set_onoff_pre, set_onoff_post]
    split_ifs with h1 <;> simp_all

theorem c6_amended_witness :
    ((runMutators testLight [Mutator.setLuminance 0 0]).lum = 0 →
      (runMutators testLight [Mutator.setLuminance 0 0]).«on» = 0) ∧
    (applyMutator testLight (Mutator.setLuminance (4 + 1) 0)).«on» ≠ 0 ∧
    (applyMutator testLight (Mutator.setLuminance 0 0)).«on» = 0 ∧
    (testLight.lum = 0 → (applyMutator testLight (Mutator.setOnoff 1)).lum = 1) ∧
    (applyMutator testLight (Mutator.setOnoff 0)).lum = testLight.lum :=
  c6_amended testLight (Mutator.setLuminance 0 0) [] 4 0

/-- C7: set_luminance(0) then set_onoff(1) ends with luminance 1 and
on flag 1 (lines 134-149), and set_luminance(50) on an off light ends
with on flag 1. -/
theorem c7_luminance_onoff_coupling (l : LightState) (t1 t2 : Nat) :
    (runMutators l [Mutator.setLuminance 0 t1, Mutator.setOnoff 1]).lum = 1 ∧
    (runMutators l [Mutator.setLuminance 0 t1, Mutator.setOnoff 1]).«on» = 1 ∧
    (l.«on» = 0 → (applyMutator l (Mutator.setLuminance 50 t2)).«on» = 1) := by
  refine ⟨?_, ?_, ?_⟩ <;>
    simp only [runMutators, List.foldl, applyMutator, set_luminance_pre,
      set_luminance_post, set_onoff_pre, set_onoff_post] <;>
    · intros
      split_ifs <;> simp_all

theorem c7_luminance_onoff_coupling_witness :
    testLightOff.«on» = 0 ∧
    (runMutators testLightOff
      [Mutator.setLuminance 0 0, Mutator.setOnoff 1]).lum = 1 ∧
    (runMutators testLightOff
      [Mutator.setLuminance 0 0, Mutator.setOnoff 1]).«on» = 1 ∧
    (applyMutator testLightOff (Mutator.setLuminance 50 0)).«on» = 1 :=
  ⟨rfl, (c7_luminance_onoff_coupling testLightOff 0 0).1,
    (c7_luminance_onoff_coupling testLightOff 0 0).2.1,
    (c7_luminance_onoff_coupling testLightOff 0 0).2.2 rfl⟩

/-- The parsed shape of the header format "<H6B". -/
theorem parseFormat_fmtH6B :
    parseFormat fmtH6B = some (Endian.little,
      [Spec.int 2, Spec.int 1, Spec.int 1, Spec.int 1, Spec.int 1,
       Spec.int 1, Spec.int 1]) := rfl

/-- Packing the 8-byte frame header with in-range values. -/
theorem pack_fmtH6B (l f c k s : Nat) (hl : l < 65536) (hf : f < 256)
    (hc : c < 256) (hk : k < 256) (hs : s < 256) :
    pack fmtH6B [SVal.num l, SVal.num f, SVal.num c, SVal.num 0, SVal.num 0,
      SVal.num k, SVal.num s] =
      some [l % 256, l / 256 % 256, f, c, 0, 0, k, s] := by
  simp only [pack, parseFormat_fmtH6B]
  simp [packGo, encodeInt, leBytes, hl, hf, hc, hk, hs, Nat.mod_eq_of_lt]

/-- Packing the frame header fails when the sequence number no longer
fits one byte. -/
theorem pack_fmtH6B_seq_overflow (l f c k s : Nat) (hs : 256 ≤ s) :
    pack fmtH6B [SVal.num l, SVal.num f, SVal.num c, SVal.num 0, SVal.num 0,
      SVal.num k, SVal.num s] = none := by
  have h : ¬(s < 256 ^ 1) := by simpa using Nat.not_lt.mpr hs
  simp only [pack, parseFormat_fmtH6B]
  simp [packGo, h]
  intros
  exact hs

/-- The full on-off frame for the literal example address at any
sequence state whose next value still fits one byte. -/
theorem build_onoff_light_frame (st : Nat) (h : st + 1 < 256) :
    (build_onoff_light addrLit 1 st).1 =
      some [15, 0, 0x00, 0x32, 0, 0, 0x07, st + 1,
        0xEF, 0xCD, 0xAB, 0x89, 0x67, 0x45, 0x23, 0x01, 0x01] := by
  have hb : pack fmtB [SVal.num 1] = some [1] := rfl
  have hq : pack fmtQ [SVal.num addrLit] =
      some [0xEF, 0xCD, 0xAB, 0x89, 0x67, 0x45, 0x23, 0x01] := rfl
  simp only [build_onoff_light, hb, build_light_command, hq,
    build_basic_command, next_seq, COMMAND_ONOFF]
  rw [show (14 + List.length [1] = 15) from rfl,
    pack_fmtH6B 15 0 0x32 7 (st + 1) (by omega) (by omega) (by omega)
      (by omega) h]
  simp

/-- Once the counter passes one byte the header pack raises instead of
wrapping, so the frame is never built. -/
theorem build_onoff_light_overflow (st : Nat) (h : 256 ≤ st + 1) :
    (build_onoff_light addrLit 1 st).1 = none := by
  have hb : pack fmtB [SVal.num 1] = some [1] := rfl
  have hq : pack fmtQ [SVal.num addrLit] =
      some [0xEF, 0xCD, 0xAB, 0x89, 0x67, 0x45, 0x23, 0x01] := rfl
  simp only [build_onoff_light, hb, build_light_command, hq,
    build_basic_command, next_seq, COMMAND_ONOFF]
  rw [pack_fmtH6B_seq_overflow _ _ _ _ _ h]
  simp

/-- C3 counterexample: the counter reaches 255 after 254 issued
commands, so the 255th command calls next_seq with result 256; the
claim predicts a frame whose sequence byte is (1 + 255) mod 256 = 0,
but struct.pack("<H6B", ...) raises struct.error on 256 and no frame
is built at all — the counter never wraps. -/
theorem c3_counterexample :
    seqCounterAfter 254 = 255 ∧ (1 + 255) % 256 = 0 ∧
    (build_onoff_light addrLit 1 (seqCounterAfter 254)).1 = none := by
  have h : seqCounterAfter 254 = 255 := by rw [seqCounterAfter_eq]
  refine ⟨h, rfl, ?_⟩
  rw [h]
  exact build_onoff_light_overflow 255 (by omega)

/-- C3 amended: the counter after n issued commands is exactly 1 + n,
with no modulo: the nth command carries sequence byte 1 + n whenever
1 + n ≤ 255 (where (1+n) mod 256 coincides with 1 + n, so the first
command carries 2 and consecutive commands increase by 1), and as soon
as 1 + n exceeds 255 the header pack raises struct.error instead of
wrapping, so no frame is built. -/
theorem c3_amended (n : Nat) (hn : 1 ≤ n) :
    seqCounterAfter n = 1 + n ∧
    (n + 1 ≤ 255 →
      ∃ f, (build_onoff_light addrLit 1 (seqCounterAfter (n - 1))).1 = some f ∧
        f.get? 7 = some (n + 1) ∧ (n + 1) % 256 = n + 1) ∧
    (255 < n + 1 →
      (build_onoff_light addrLit 1 (seqCounterAfter (n - 1))).1 = none) := by
  have hprev : seqCounterAfter (n - 1) = n := by
    rw [seqCounterAfter_eq]
    omega
  refine ⟨seqCounterAfter_eq n, ?_, ?_⟩
  · intro hle
    refine ⟨_, by rw [hprev]; exact build_onoff_light_frame n (by omega), ?_, ?_⟩
    · simp [List.get?]
    · exact Nat.mod_eq_of_lt (by omega)
  · intro hgt
    rw [hprev]
    exact build_onoff_light_overflow n (by omega)

theorem c3_amended_witness :
    seqCounterAfter 1 = 1 + 1 ∧
    (∃ f, (build_onoff_light addrLit 1 (seqCounterAfter (1 - 1))).1 = some f ∧
      f.get? 7 = some (1 + 1) ∧ (1 + 1) % 256 = 1 + 1) ∧
    (build_onoff_light addrLit 1 4).1 ≠ none :=
  ⟨(c3_amended 1 (by omega)).1,
   (c3_amended 1 (by omega)).2.1 (by omega),
   by decide⟩

/-- Zero always encodes to zero bytes. -/
theorem leBytes_zero (n : Nat) : leBytes n 0 = List.replicate n 0 := by
  induction n with
  | zero => rfl
  | succ m ih => simp [leBytes, ih, List.replicate]

/-- A value below 256 occupies the first byte, the rest is padding. -/
theorem leBytes_of_lt (n v : Nat) (h : v < 256) :
    leBytes (n + 1) v = v :: List.replicate n 0 := by
  simp [leBytes, Nat.mod_eq_of_lt h, Nat.div_eq_of_lt h, leBytes_zero]

/-- C5 counterexample: for the 16-bit group index 256 the claim
predicts a frame whose target selector is the 8-byte little-endian
encoding [0, 1, 0, 0, 0, 0, 0, 0]; instead
struct.pack("<8B", 256, 0, ..., 0) raises struct.error because 256
does not fit the single-byte field, and no frame is built. -/
theorem c5_counterexample :
    (build_command COMMAND_ONOFF 256 [1] 1).1 = none ∧
    leBytes 8 256 = [0, 1, 0, 0, 0, 0, 0, 0] :=
  ⟨rfl, rfl⟩

/-- C5 amended: the target selector of a group command equals the
8-byte little-endian encoding of the group index — the index byte
followed by seven zero bytes — only for indices up to 255 (with the
command, sequence and length fields in range); for any 16-bit index
above 255 struct.pack("<8B") raises struct.error and no frame is
built. -/
theorem c5_amended (cmd idx st : Nat) (data : List Nat) (hcmd : cmd < 256)
    (hst : st + 1 < 256) (hlen : 14 + data.length < 65536) :
    (idx ≤ 255 →
      ∃ f, (build_command cmd idx data st).1 = some f ∧
        pySub f 8 16 = leBytes 8 idx ∧
        leBytes 8 idx = idx :: List.replicate 7 0) ∧
    (255 < idx → (build_command cmd idx data st).1 = none) := by
  constructor
  · intro hidx
    have htgt : pack fmt8B [SVal.num idx, SVal.num 0, SVal.num 0, SVal.num 0,
        SVal.num 0, SVal.num 0, SVal.num 0, SVal.num 0] =
        some [idx, 0, 0, 0, 0, 0, 0, 0] := by
      simp only [pack, show parseFormat fmt8B = some (Endian.little,
        List.replicate 8 (Spec.int 1)) from rfl]
      simp [packGo, encodeInt, leBytes, List.replicate,
        Nat.mod_eq_of_lt (show idx < 256 by omega), Nat.lt_of_le_of_lt hidx]
    have hle : leBytes 8 idx = idx :: List.replicate 7 0 := by
      rw [show (8 : Nat) = 7 + 1 from rfl, leBytes_of_lt 7 idx (by omega)]
    simp only [build_command, htgt, build_basic_command, next_seq]
    rw [pack_fmtH6B (14 + data.length) 2 cmd 7 (st + 1) hlen (by omega) hcmd
      (by omega) hst]
    refine ⟨_, rfl, ?_, hle⟩
    rw [hle]
    simp [pySub, List.replicate]
  · intro hidx
    have htgt : pack fmt8B [SVal.num idx, SVal.num 0, SVal.num 0, SVal.num 0,
        SVal.num 0, SVal.num 0, SVal.num 0, SVal.num 0] = none := by
      simp only [pack, show parseFormat fmt8B = some (Endian.little,
        List.replicate 8 (Spec.int 1)) from rfl]
      simp [packGo, List.replicate]
      omega
    simp [build_command, htgt]

theorem c5_amended_witness :
    (3 : Nat) ≤ 255 ∧
    (∃ f, (build_command COMMAND_ONOFF 3 [1] 1).1 = some f ∧
      pySub f 8 16 = leBytes 8 3 ∧
      leBytes 8 3 = 3 :: List.replicate 7 0) :=
  ⟨by omega,
   (c5_amended COMMAND_ONOFF 3 1 [1] (by decide) (by decide) (by decide)).1
     (by omega)⟩

/-- The record loop can only fail while the old registry view is
still untouched: every record decode raises at the MAC field before
any Light object is updated, so an error always carries the registry
it was entered with. -/
theorem als_loop_error (data : List Nat) (n i : Nat)
    (reg newL : List (Nat × LightState)) (e : PyError)
    (regf : List (Nat × LightState))
    (h : als_loop data n i reg newL = Except.error (e, regf)) : regf = reg := by
  cases n with
  | zero => simp [als_loop] at h
  | succ m =>
    simp only [als_loop, decode_status_record_error, Except.error.injEq,
      Prod.mk.injEq] at h
    exact h.2.symm

/-- A failing update_all_light_status leaves the light registry as it
was: the registry is replaced only on the success path (line 540), and
the in-place merge never runs because every record decode raises
first. -/
theorem update_all_light_status_error_lights (s : SessionState)
    (resp : Option (List Nat)) (e : PyError) (s2 : SessionState)
    (h : update_all_light_status s resp = Except.error (e, s2)) :
    s2.lights = s.lights := by
  unfold update_all_light_status at h
  split at h
  · simp only [Except.error.injEq, Prod.mk.injEq] at h
    rw [← h.2]
  · split at h
    · simp only [Except.error.injEq, Prod.mk.injEq] at h
      rw [← h.2]
    · split at h
      · split at h
        · rename_i heq
          simp only [Except.error.injEq, Prod.mk.injEq] at h
          rw [← h.2]
          exact als_loop_error _ _ _ _ _ _ _ heq
        · simp at h
      · simp only [Except.error.injEq, Prod.mk.injEq] at h
        rw [← h.2]

/-- A failing update_group_list leaves the group registry as it was:
self.__groups is assigned only on the success path (line 388). -/
theorem update_group_list_error_groups (s : SessionState)
    (stream : List (Option (List Nat))) (e : PyError) (s2 : SessionState)
    (h : update_group_list s stream = Except.error (e, s2)) :
    s2.groups = s.groups := by
  unfold update_group_list at h
  split at h
  · simp only [Except.error.injEq, Prod.mk.injEq] at h
    rw [← h.2]
  · split at h
    · simp only [Except.error.injEq, Prod.mk.injEq] at h
      rw [← h.2]
    · simp only [Except.error.injEq, Prod.mk.injEq] at h
      rw [← h.2]
    · split at h
      · simp only [Except.error.injEq, Prod.mk.injEq] at h
        rw [← h.2]
      · split at h
        · simp only [Except.error.injEq, Prod.mk.injEq] at h
          rw [← h.2]
        · simp at h

/-- C8: if refreshing the group list or the all-light status fails at
any point — a transport failure, a failing group-info sub-request
mid-refresh, or a decode failure partway through a multi-entry
response — the corresponding registry is exactly what it was before
the call. -/
theorem c8_failed_refresh_preserves_registries (s : SessionState)
    (stream : List (Option (List Nat))) (resp : Option (List Nat))
    (eg el : PyError) (sg sl : SessionState) :
    (update_group_list s stream = Except.error (eg, sg) →
      sg.groups = s.groups) ∧
    (update_all_light_status s resp = Except.error (el, sl) →
      sl.lights = s.lights) :=
  ⟨update_group_list_error_groups s stream eg sg,
   update_all_light_status_error_lights s resp el sl⟩

theorem c8_failed_refresh_preserves_registries_witness :
    update_group_list testSession [] =
      Except.error (PyError.transport, { seq := 2, lights := [], groups := [] }) ∧
    ({ seq := 2, lights := [], groups := [] } : SessionState).groups =
      testSession.groups ∧
    update_all_light_status testSession none =
      Except.error (PyError.transport, { seq := 2, lights := [], groups := [] }) ∧
    ({ seq := 2, lights := [], groups := [] } : SessionState).lights =
      testSession.lights :=
  ⟨rfl,
   (c8_failed_refresh_preserves_registries testSession [] none
     PyError.transport PyError.transport
     { seq := 2, lights := [], groups := [] }
     { seq := 2, lights := [], groups := [] }).1 rfl,
   rfl,
   (c8_failed_refresh_preserves_registries testSession [] none
     PyError.transport PyError.transport
     { seq := 2, lights := [], groups := [] }
     { seq := 2, lights := [], groups := [] }).2 rfl⟩

theorem hexChar_isHex : ∀ m : Nat, m < 16 → isHexDigitChar (hexChar m) = true := by
  decide

/-- Every character produced by the hex rendering is a lowercase hex
digit. -/
theorem hexRep_hex (n : Nat) : ∀ c ∈ hexRep n, isHexDigitChar c = true := by
  induction n using Nat.strong_induction_on with
  | _ n ih =>
    intro c hc
    rw [hexRep] at hc
    by_cases h : n < 16
    · rw [dif_pos h] at hc
      simp only [List.mem_singleton] at hc
      subst hc
      exact hexChar_isHex n h
    · rw [dif_neg h] at hc
      rcases List.mem_append.mp hc with h1 | h2
      · exact ih (n / 16) (Nat.div_lt_self (by omega) (by omega)) c h1
      · simp only [List.mem_singleton] at h2
        subst h2
        exact hexChar_isHex _ (Nat.mod_lt _ (by omega))

/-- The unpadded hex rendering of n has k + 1 digits exactly when n
lies in [16 ^ k, 16 ^ (k + 1)). -/
theorem hexRep_length : ∀ k n : Nat, 16 ^ k ≤ n → n < 16 ^ (k + 1) →
    (hexRep n).length = k + 1 := by
  intro k
  induction k with
  | zero =>
    intro n _ h2
    rw [hexRep, dif_pos (by simpa using h2)]
    rfl
  | succ m ih =>
    intro n h1 h2
    have hpow : (16 : Nat) ^ 1 ≤ 16 ^ (m + 1) :=
      Nat.pow_le_pow_right (by norm_num) (by omega)
    have h16n : (16 : Nat) ≤ n := by
      have := le_trans hpow h1
      simpa using this
    rw [hexRep, dif_neg (Nat.not_lt.mpr h16n), List.length_append]
    have hd1 : 16 ^ m ≤ n / 16 := by
      rw [Nat.le_div_iff_mul_le (by norm_num)]
      calc 16 ^ m * 16 = 16 ^ (m + 1) := by rw [pow_succ]
        _ ≤ n := h1
    have hd2 : n / 16 < 16 ^ (m + 1) := by
      rw [Nat.div_lt_iff_lt_mul (by norm_num)]
      calc n < 16 ^ (m + 1 + 1) := h2
        _ = 16 ^ (m + 1) * 16 := by rw [pow_succ]
    rw [ih (n / 16) hd1 hd2]
    simp

/-- Length of a dash-join of two-character parts. -/
theorem pyJoin_length_two : ∀ ps : List (List Char), ps ≠ [] →
    (∀ p ∈ ps, p.length = 2) →
    (pyJoin dashChar ps).length = 3 * ps.length - 1 := by
  intro ps
  induction ps with
  | nil => intro h; exact absurd rfl h
  | cons p rest ih =>
    intro _ hall
    cases rest with
    | nil => simp [pyJoin, hall p (by simp)]
    | cons q rest2 =>
      rw [show pyJoin dashChar (p :: q :: rest2) =
          p ++ dashChar :: pyJoin dashChar (q :: rest2) from rfl,
        List.length_append, List.length_cons,
        ih (by simp) (fun x hx => hall x (by simp [hx])),
        hall p (by simp)]
      simp only [List.length_cons]
      omega

theorem hexRep_171 : hexRep 171 = [Char.ofNat 97, Char.ofNat 98] := by
  rw [hexRep, dif_neg (by norm_num),
    show (171 : Nat) / 16 = 10 from rfl, show (171 : Nat) % 16 = 11 from rfl,
    hexRep, dif_pos (by norm_num)]
  rfl

/-- format(171, 'x') is the two-character string ab, so the mac
rendering of the address 0xAB is ab followed by seven dashes with six
empty groups. -/
theorem mac_171 : mac 171 = [Char.ofNat 97, Char.ofNat 98, dashChar, dashChar,
    dashChar, dashChar, dashChar, dashChar, dashChar] := by
  simp only [mac, hexRep_171]
  rfl

/-- C9 counterexample: for the address 0xAB the rendering is
"ab-------", nine characters, which cannot be a dash-join of eight
two-hex-digit groups (that would have 23 characters): format(addr,'x')
does not zero-pad, so small addresses yield short and empty groups. -/
theorem c9_counterexample :
    mac 171 = [Char.ofNat 97, Char.ofNat 98, dashChar, dashChar, dashChar,
      dashChar, dashChar, dashChar, dashChar] ∧
    ¬∃ parts : List (List Char), parts.length = 8 ∧
      (∀ p ∈ parts, p.length = 2 ∧ ∀ c ∈ p, isHexDigitChar c = true) ∧
      mac 171 = pyJoin dashChar parts := by
  refine ⟨mac_171, ?_⟩
  rintro ⟨ps, h8, hp, heq⟩
  have hne : ps ≠ [] := by
    intro h0
    rw [h0] at h8
    simp at h8
  have hL := pyJoin_length_two ps hne (fun p hp2 => (hp p hp2).1)
  rw [← heq, mac_171, h8] at hL
  simp at hL

/-- C9 amended: mac renders the address as a dash-join of exactly 8
groups of two lowercase hex digits precisely when the unpadded hex
representation has 16 digits, i.e. for addresses from 2^60 up to
2^64; below 2^60 the rendering is shorter, with unpadded, truncated
or empty groups. -/
theorem c9_amended (addr : Nat) (h1 : 2 ^ 60 ≤ addr) (h2 : addr < 2 ^ 64) :
    ∃ parts : List (List Char), parts.length = 8 ∧
      (∀ p ∈ parts, p.length = 2 ∧ ∀ c ∈ p, isHexDigitChar c = true) ∧
      mac addr = pyJoin dashChar parts := by
  have hlen : (hexRep addr).length = 16 := by
    have e1 : (16 : Nat) ^ 15 = 2 ^ 60 := by norm_num
    have e2 : (16 : Nat) ^ (15 + 1) = 2 ^ 64 := by norm_num
    exact hexRep_length 15 addr (by rw [e1]; exact h1) (by rw [e2]; exact h2)
  refine ⟨(List.range 8).map (fun k => ((hexRep addr).drop (2 * k)).take 2),
    by simp, ?_, rfl⟩
  intro p hp
  obtain ⟨k, hk, rfl⟩ := List.mem_map.mp hp
  have hk8 : k < 8 := List.mem_range.mp hk
  constructor
  · rw [List.length_take, List.length_drop, hlen]
    omega
  · intro c hc
    exact hexRep_hex addr c (List.drop_subset _ _ (List.take_subset _ _ hc))

theorem c9_amended_witness :
    2 ^ 60 ≤ 0x1122334455667788 ∧ (0x1122334455667788 : Nat) < 2 ^ 64 ∧
    ∃ parts : List (List Char), parts.length = 8 ∧
      (∀ p ∈ parts, p.length = 2 ∧ ∀ c ∈ p, isHexDigitChar c = true) ∧
      mac 0x1122334455667788 = pyJoin dashChar parts :=
  ⟨by norm_num, by norm_num, c9_amended 0x1122334455667788 (by norm_num) (by norm_num)⟩

/-- C10: each Light mutator writes the requested value into its local
field strictly before the wire round trip (lines 135, 144, 155,
162-164 precede the super() calls), so when the send/receive fails the
escaping state already holds the requested value — with no rollback
and all other fields unchanged. -/
theorem c10_mutators_write_before_wire (l : LightState)
    («on» lum t1 temp t2 r g b t3 : Nat) :
    light_set_onoff l «on» false = Except.error { l with «on» := «on» } ∧
    light_set_luminance l lum t1 false = Except.error { l with lum := lum } ∧
    light_set_temperature l temp t2 false = Except.error { l with temp := temp } ∧
    light_set_rgb l r g b t3 false =
      Except.error { l with r := r, g := g, b := b } :=
  ⟨rfl, rfl, rfl, rfl⟩

end Lightify
